import Mathlib

/-!
Verification of the rate-limited Canvas API client and the sync orchestrator
(`src/canvas/canvas_client.py`, `src/sync/sync_service.py`, with the mirror
data model from `src/models/data_models.py` and the workflow-state mapping of
`src/api/app.py`).

Times (wall clock, TTLs, epoch seconds) are modelled as rationals.  Remote
I/O and collaborator behaviour (HTTP exchanges, the storage backend, the
credential provider) are passed in explicitly as values, so every function
here is a pure shallow embedding of the corresponding Python code path.
-/

namespace CanvasFlow

/- ===================== RemoteClient: rate-limit state ===================== -/

/-- `RateLimitInfo` from `canvas_client.py` (lines 37-48): the quota parsed
from the server's rate-limit headers. `reset_time` is an absolute time. -/
structure RateLimitInfo where
  limit : Int
  remaining : Int
  reset_time : ℚ
deriving DecidableEq, Repr

/-- `RateLimitInfo.is_exceeded`: `self.remaining <= 0`. -/
def RateLimitInfo.is_exceeded (i : RateLimitInfo) : Bool :=
  i.remaining ≤ 0

/-- `RateLimitInfo.time_until_reset`: `self.reset_time - datetime.utcnow()`,
with the current clock passed explicitly. -/
def RateLimitInfo.time_until_reset (i : RateLimitInfo) (now : ℚ) : ℚ :=
  i.reset_time - now

/-- `_update_rate_limit_info` (lines 123-137).  The three headers are
modelled post-parsing: `some n` means the header was present and `int(...)`
succeeded; any absent or unparsable header makes the Python code keep the
prior quota state (the `all([...])` guard plus the caught
`ValueError`/`TypeError`).  When all three parse, the new state stores the
parsed integers as they are. -/
def update_rate_limit_info (limit remaining reset : Option Int)
    (cur : Option RateLimitInfo) : Option RateLimitInfo :=
  match limit, remaining, reset with
  | some l, some r, some t => some ⟨l, r, (t : ℚ)⟩
  | _, _, _ => cur

/-- `self.min_request_interval = 0.1` (line 70). -/
def minRequestInterval : ℚ := 1 / 10

/-- The pre-issue waiting logic of `_make_request` (lines 81-96), expressed
as the absolute time at which the HTTP request is actually issued.  First
the minimum-spacing sleep, then, if the last known quota is exceeded and its
reset time is still ahead of the (post-sleep) clock, a sleep until that
reset time.  The function is total: the call always proceeds to issue the
request, it never fails fast. -/
def issue_time (now last_request_time : ℚ) (info : Option RateLimitInfo) : ℚ :=
  let t1 :=
    if now - last_request_time < minRequestInterval then
      now + (minRequestInterval - (now - last_request_time))
    else now
  match info with
  | some i =>
      if i.is_exceeded then
        let wait := i.time_until_reset t1
        if 0 < wait then t1 + wait else t1
      else t1
  | none => t1

/- ===================== RemoteClient: error taxonomy ===================== -/

/-- Outcome of one raw HTTP exchange, before classification: a response with
a status code and body, or one of the `requests` exception families caught
in `_make_request` (lines 116-121). -/
inductive HttpResult where
  | resp (status : Nat) (body : String)
  | timeout
  | connFailure
  | reqFailure (msg : String)
deriving DecidableEq, Repr

/-- The exception classes of `canvas_client.py` lines 17-34.
`RateLimitError`, `AuthenticationError` and `NotFoundError` are subclasses
of `CanvasAPIError`; timeout, connection and generic API errors are raised
as the base class itself, distinguished only by message. -/
inductive ErrClass where
  | canvasAPIError
  | rateLimitError
  | authenticationError
  | notFoundError
deriving DecidableEq, Repr

/-- A raised exception: its class and its message string. -/
structure ApiError where
  cls : ErrClass
  msg : String
deriving DecidableEq, Repr

/-- `requests.Response.ok`: true iff `status_code < 400`. -/
def respOk (status : Nat) : Bool :=
  status < 400

/-- A 2xx status, used to state the spec's "non-2xx" claim. -/
def is2xx (status : Nat) : Bool :=
  200 ≤ status ∧ status < 300

/-- The error classification of `_make_request` (lines 98-121): 401, 404 and
429 raise their dedicated subclasses, any other not-ok status raises the
base class with an `API error` message, and timeouts / connection failures /
other request failures raise the base class with fixed messages.  A
response that is `ok` is returned unchanged. -/
def classify_response (endpoint : String) (r : HttpResult) :
    Except ApiError (Nat × String) :=
  match r with
  | .resp s body =>
      if s = 401 then
        .error ⟨.authenticationError, "Invalid or expired access token"⟩
      else if s = 404 then
        .error ⟨.notFoundError, "Resource not found: " ++ endpoint⟩
      else if s = 429 then
        .error ⟨.rateLimitError, "Rate limit exceeded"⟩
      else if respOk s then
        .ok (s, body)
      else
        .error ⟨.canvasAPIError, "API error " ++ toString s ++ ": " ++ body⟩
  | .timeout => .error ⟨.canvasAPIError, "Request timeout"⟩
  | .connFailure => .error ⟨.canvasAPIError, "Connection error"⟩
  | .reqFailure m => .error ⟨.canvasAPIError, "Request failed: " ++ m⟩

/-- One `_make_request` call against a stream of would-be successive HTTP
exchanges: the client performs exactly one exchange and classifies it; it
contains no retry loop, so the tail of the stream is never consumed. -/
def request_once (endpoint : String) (exchanges : List HttpResult) :
    Option (Except ApiError (Nat × String)) :=
  match exchanges with
  | [] => none
  | e :: _ => some (classify_response endpoint e)

/-- The exception raised for an exchange, if any. -/
def classify_err (endpoint : String) (r : HttpResult) : Option ApiError :=
  match classify_response endpoint r with
  | .error e => some e
  | .ok _ => none

/- ===================== ResponseCache ===================== -/

/-- The client's `self.cache` dict: a finite map from key strings to a
stored payload together with its `storedAt` timestamp (`_set_cache` stores
`(data, datetime.utcnow())`). -/
abbrev Cache (α : Type) : Type :=
  List (String × α × ℚ)

/-- Dict lookup: the binding for `k`, if present. -/
def Cache.lookup {α : Type} (c : Cache α) (k : String) : Option (α × ℚ) :=
  match c.find? (fun e => e.1 == k) with
  | some (_, v, t) => some (v, t)
  | none => none

/-- `del self.cache[key]`. -/
def Cache.eraseKey {α : Type} (c : Cache α) (k : String) : Cache α :=
  c.filter (fun e => e.1 != k)

/-- `_get_cached` (lines 139-147): a fresh entry (strictly younger than the
TTL) is returned as a hit; a stale entry is evicted and the call misses; an
absent key misses.  Returns the result together with the updated cache. -/
def get_cached {α : Type} (ttl now : ℚ) (c : Cache α) (k : String) :
    Option α × Cache α :=
  match c.lookup k with
  | some (v, ts) =>
      if now - ts < ttl then (some v, c) else (none, c.eraseKey k)
  | none => (none, c)

/-- `_set_cache` (lines 149-151): unconditional overwrite of the binding
for `k`, stamped with the current clock. -/
def set_cache {α : Type} (c : Cache α) (k : String) (v : α) (now : ℚ) :
    Cache α :=
  (k, v, now) :: c.eraseKey k

/- ===================== get_courses (truthiness-gated cache) ============== -/

/-- The cache key built by `get_courses` (line 168); Python interpolates
`None` for an absent parameter. -/
def optArg : Option String → String
  | none => "None"
  | some s => s

/-- `f"courses_{enrollment_type}_{enrollment_role}"`. -/
def cache_key_courses (enrollment_type enrollment_role : Option String) : String :=
  "courses_" ++ optArg enrollment_type ++ "_" ++ optArg enrollment_role

/-- Result of one `get_courses` call: the returned payload, the cache
afterwards, and whether a remote request was issued. -/
structure GetCoursesResult (α : Type) where
  data : List α
  cache : Cache (List α)
  fetched : Bool

/-- `get_courses` (lines 165-182).  `cached = self._get_cached(key)` is
followed by the truthiness test `if cached:`; a `None` result and an empty
list are both falsy, so only a fresh non-empty payload short-circuits the
remote call.  Otherwise the remote list is fetched, cached and returned. -/
def get_courses {α : Type} (ttl now : ℚ) (cache : Cache (List α))
    (enrollment_type enrollment_role : Option String) (remote : List α) :
    GetCoursesResult α :=
  let key := cache_key_courses enrollment_type enrollment_role
  let hit := get_cached ttl now cache key
  match hit.1 with
  | some v =>
      if v.isEmpty then
        ⟨remote, set_cache hit.2 key remote now, true⟩
      else ⟨v, hit.2, false⟩
  | none => ⟨remote, set_cache hit.2 key remote now, true⟩

/- ===================== Mirror data model ===================== -/

/-- `AssignmentStatus` from `data_models.py` (lines 13-16). -/
inductive AssignmentStatus where
  | draft
  | published
  | unpublished
deriving DecidableEq, Repr

/-- A Python value stored in the dynamically typed `Assignment.status`
field: either a raw workflow-state string (as assigned by
`sync_course_assignments`) or a proper `AssignmentStatus` member (as the
dataclass declares and as the `api/app.py` routes assign). -/
inductive StatusVal where
  | str (s : String)
  | enum (a : AssignmentStatus)
deriving DecidableEq, Repr

/-- The workflow-state-to-status conversion implemented by the API routes
(`api/app.py` lines 328-335): `published → PUBLISHED`,
`unpublished → UNPUBLISHED`, anything else → `DRAFT`. -/
def map_workflow_state (w : String) : AssignmentStatus :=
  if w = "published" then .published
  else if w = "unpublished" then .unpublished
  else .draft

/-- The fields of the local `Assignment` mirror that the sync path writes
and that the claims observe (`data_models.py` lines 281-297; the date and
grading fields play no role in the verified properties and are elided). -/
structure Assignment where
  id : String
  canvas_assignment_id : String
  course_id : String
  name : String
  status : StatusVal
deriving DecidableEq, Repr

/-- The fields of the local `Course` mirror written by `sync_user_courses`
(`data_models.py`; fields not observed by the claims are elided). -/
structure Course where
  id : String
  canvas_course_id : String
  name : String
deriving DecidableEq, Repr

/-- The storage collaborator, treated as a keyed document store: `save_*`
is an upsert on the mirror's stable id (`DatabaseInterface` in
`data_models.py`). -/
abbrev Store (α : Type) : Type :=
  List (String × α)

/-- Upsert: replace the record with the same key, or append. -/
def Store.upsert {α : Type} (db : Store α) (key : String) (v : α) : Store α :=
  if db.any (fun e => e.1 == key) then
    db.map (fun e => if e.1 == key then (key, v) else e)
  else db ++ [(key, v)]

/-- Lookup by key. -/
def Store.get {α : Type} (db : Store α) (key : String) : Option α :=
  match db.find? (fun e => e.1 == key) with
  | some (_, v) => some v
  | none => none

/- ===================== Remote payload items ===================== -/

/-- One element of the remote assignment list, as consumed by
`sync_course_assignments` (lines 179-208).  `name = none` models a payload
without the mandatory `'name'` key (the `assignment_data['name']` access
raises and the item is skipped); `workflow_state` is optional with default
`'published'`; `persistOk` is the storage collaborator's behaviour for this
item's `save_assignment` call (`false` = the save raises). -/
structure AssignmentData where
  id : Nat
  name : Option String
  workflow_state : Option String
  persistOk : Bool
deriving DecidableEq, Repr

/-- One element of the remote course list, as consumed by
`sync_user_courses` (lines 119-142), with the same conventions. -/
structure CourseData where
  id : Nat
  name : Option String
  persistOk : Bool
deriving DecidableEq, Repr

/-- The per-item conversion of `sync_course_assignments` (lines 181-192):
builds the mirror record with the derived stable id, and stores the raw
`workflow_state` string (defaulted to `'published'`) directly into the
`status` field, without the enum conversion of `map_workflow_state`.
`none` models the item-aborting exception on a missing `'name'` key. -/
def convert_assignment (course_id : String) (d : AssignmentData) :
    Option Assignment :=
  match d.name with
  | none => none
  | some n =>
      some { id := "assign_" ++ toString d.id
             canvas_assignment_id := toString d.id
             course_id := course_id
             name := n
             status := .str (d.workflow_state.getD "published") }

/-- The per-item conversion of `sync_user_courses` (lines 121-128). -/
def convert_course (d : CourseData) : Option Course :=
  match d.name with
  | none => none
  | some n =>
      some { id := "course_" ++ toString d.id
             canvas_course_id := toString d.id
             name := n }

/- ===================== SyncJob and its updates ===================== -/

/-- `SyncStatus` from `sync_service.py` (lines 22-26). -/
inductive SyncStatus where
  | pending
  | running
  | completed
  | failed
deriving DecidableEq, Repr

/-- The `SyncJob` fields the claims observe (`sync_service.py` lines
29-45; timestamps and metadata are environmental and elided). -/
structure SyncJob where
  id : String
  user_id : String
  sync_type : String
  status : SyncStatus
  error_message : Option String
  items_processed : Nat
  items_total : Nat
deriving DecidableEq, Repr

/-- A job under construction, together with the ordered history of values
written to its `status` field (the creation value followed by every
`_update_sync_job(..., status=...)` call). -/
structure JobState where
  job : SyncJob
  trace : List SyncStatus
deriving DecidableEq, Repr

/-- `_create_sync_job` (lines 78-87): a fresh job in `PENDING`.  The
timestamp suffix of the Python id only serves uniqueness and is elided. -/
def create_sync_job (user_id sync_type : String) : JobState :=
  { job := { id := "sync_" ++ user_id ++ "_" ++ sync_type
             user_id := user_id
             sync_type := sync_type
             status := .pending
             error_message := none
             items_processed := 0
             items_total := 0 }
    trace := [.pending] }

/-- `_update_sync_job(..., status=s)`. -/
def JobState.setStatus (j : JobState) (s : SyncStatus) : JobState :=
  { job := { j.job with status := s }, trace := j.trace ++ [s] }

/-- `_update_sync_job(..., items_total=n)`. -/
def JobState.setTotal (j : JobState) (n : Nat) : JobState :=
  { j with job := { j.job with items_total := n } }

/-- `_update_sync_job(..., items_processed=n)`. -/
def JobState.setProcessed (j : JobState) (n : Nat) : JobState :=
  { j with job := { j.job with items_processed := n } }

/-- `_update_sync_job(..., error_message=m)`. -/
def JobState.setError (j : JobState) (m : String) : JobState :=
  { j with job := { j.job with error_message := some m } }

/-- The allowed `SyncJob` transition relation claimed by the spec:
`Pending → Running → {Completed, Failed}` and nothing else. -/
def SyncStep (a b : SyncStatus) : Prop :=
  (a = .pending ∧ b = .running) ∨
  (a = .running ∧ (b = .completed ∨ b = .failed))

/- ===================== Sync operations ===================== -/

/-- The outcome of the collection fetch (`client.get_assignments` /
`client.get_courses`) seen by a sync operation: either the remote item
list, or an exception carrying its message.  An exception raised on the
path to the fetch (client construction, token decryption) lands in the
same `except` clause and is covered by the `exn` case. -/
inductive FetchOutcome (α : Type) where
  | ok (items : List α)
  | exn (msg : String)
deriving DecidableEq, Repr

/-- How one sync call returned: `errUserNotFound` is the `ValueError`
raised before any job exists, `rejected` is the `return None` of the
mutual-exclusion check, `ok` returns the job id, `raised` re-raises after
marking the job failed. -/
inductive SyncReturn where
  | errUserNotFound
  | rejected
  | ok (jobId : String)
  | raised (msg : String)
deriving DecidableEq, Repr

/-- Membership-checked insertion into the running-principals set
(`self.running_syncs.add`). -/
def insertSet (l : List String) (x : String) : List String :=
  if x ∈ l then l else l ++ [x]

/-- `self.running_syncs.discard`. -/
def eraseSet (l : List String) (x : String) : List String :=
  l.filter (fun y => y != x)

/-- Events on the shared orchestrator state performed by one
`sync_user_courses` call, in order: the insertion into the running set,
the remote fetch, and the `finally` removal. -/
inductive RunEvent where
  | insertRunning (uid : String)
  | remoteFetch
  | removeRunning (uid : String)
deriving DecidableEq, Repr

/-- The state of the per-item loop of a collection sync: the storage
contents, the success counter and the job under construction. -/
structure ItemLoop where
  db : Store Assignment
  synced : Nat
  js : JobState

/-- One iteration of the assignment loop (lines 179-208): convert, save,
bump the counter and write it to the job; any item-level exception
(missing mandatory key, failing save) is caught and the item skipped. -/
def process_assignment_item (course_id : String) (st : ItemLoop)
    (d : AssignmentData) : ItemLoop :=
  match convert_assignment course_id d with
  | none => st
  | some a =>
      if d.persistOk then
        { db := st.db.upsert a.id a
          synced := st.synced + 1
          js := st.js.setProcessed (st.synced + 1) }
      else st

/-- The state of the per-item course loop. -/
structure CourseLoop where
  db : Store Course
  synced : Nat
  js : JobState

/-- One iteration of the course loop (lines 119-142). -/
def process_course_item (st : CourseLoop) (d : CourseData) : CourseLoop :=
  match convert_course d with
  | none => st
  | some c =>
      if d.persistOk then
        { db := st.db.upsert c.id c
          synced := st.synced + 1
          js := st.js.setProcessed (st.synced + 1) }
      else st

/-- Result of one `sync_course_assignments` call.  `jobs` lists the jobs
the call created (empty when it raised before creating one). -/
structure AssignmentsRun where
  ret : SyncReturn
  jobs : List SyncJob
  trace : List SyncStatus
  db : Store Assignment
deriving Repr

/-- `sync_course_assignments` (lines 162-224): reject a missing user with
`ValueError`; otherwise create the job, mark it running, fetch the remote
list, process items one by one (item failures are skipped), and finish
`COMPLETED` with the success count — or, when the fetch itself raises,
record the message and finish `FAILED`, re-raising. -/
def sync_course_assignments (db0 : Store Assignment) (userExists : Bool)
    (fetch : FetchOutcome AssignmentData) (user_id course_id : String) :
    AssignmentsRun :=
  if userExists = false then
    { ret := .errUserNotFound, jobs := [], trace := [], db := db0 }
  else
    let js0 := create_sync_job user_id "assignments"
    match fetch with
    | .exn m =>
        let js := ((js0.setStatus .running).setError m).setStatus .failed
        { ret := .raised m, jobs := [js.job], trace := js.trace, db := db0 }
    | .ok items =>
        let js1 := (js0.setStatus .running).setTotal items.length
        let fin := items.foldl (process_assignment_item course_id)
          { db := db0, synced := 0, js := js1 }
        let js2 := (fin.js.setProcessed fin.synced).setStatus .completed
        { ret := .ok js2.job.id, jobs := [js2.job], trace := js2.trace
          db := fin.db }

/-- Result of one `sync_user_courses` call. -/
structure CoursesRun where
  ret : SyncReturn
  running : List String
  jobs : List SyncJob
  trace : List SyncStatus
  events : List RunEvent
  db : Store Course
deriving Repr

/-- `sync_user_courses` (lines 97-160): `ValueError` on a missing user;
`return None` when the principal is already in the running set and
`force_refresh` is false; otherwise create the job, add the principal to
the running set, fetch and process courses, and remove the principal in
the `finally` block on every exit path. -/
def sync_user_courses (running0 : List String) (db0 : Store Course)
    (userExists : Bool) (fetch : FetchOutcome CourseData)
    (user_id : String) (force_refresh : Bool) : CoursesRun :=
  if userExists = false then
    { ret := .errUserNotFound, running := running0, jobs := [], trace := []
      events := [], db := db0 }
  else if force_refresh = false ∧ user_id ∈ running0 then
    { ret := .rejected, running := running0, jobs := [], trace := []
      events := [], db := db0 }
  else
    let js0 := create_sync_job user_id "courses"
    let running1 := insertSet running0 user_id
    match fetch with
    | .exn m =>
        let js := ((js0.setStatus .running).setError m).setStatus .failed
        { ret := .raised m
          running := eraseSet running1 user_id
          jobs := [js.job]
          trace := js.trace
          events := [.insertRunning user_id, .remoteFetch,
                     .removeRunning user_id]
          db := db0 }
    | .ok items =>
        let js1 := (js0.setStatus .running).setTotal items.length
        let fin := items.foldl process_course_item
          { db := db0, synced := 0, js := js1 }
        let js2 := (fin.js.setProcessed fin.synced).setStatus .completed
        { ret := .ok js2.job.id
          running := eraseSet running1 user_id
          jobs := [js2.job]
          trace := js2.trace
          events := [.insertRunning user_id, .remoteFetch,
                     .removeRunning user_id]
          db := fin.db }

/- ===================== Helper lemmas ===================== -/

/-- Overwriting a key makes its binding the stored value and timestamp. -/
theorem lookup_set_self {α : Type} (c : Cache α) (k : String) (v : α) (t : ℚ) :
    (set_cache c k v t).lookup k = some (v, t) := by
  simp [set_cache, Cache.lookup, List.find?]

/-- Evicting a key removes its binding. -/
theorem lookup_erase_self {α : Type} (c : Cache α) (k : String) :
    (Cache.eraseKey c k).lookup k = none := by
  unfold Cache.lookup
  have h : (Cache.eraseKey c k).find? (fun e => e.1 == k) = none := by
    rw [List.find?_eq_none]
    intro e he
    have := (List.mem_filter.mp he).2
    simpa [bne] using this
  rw [h]

/- ===================== C4 ===================== -/

/-- C4: a cache `get` within TTL of a `put` returns exactly the stored
value; once the TTL has elapsed the `get` returns nothing and evicts the
entry; and a later `put` followed by a within-TTL `get` returns the new
value, so a stale entry never poisons the key permanently. -/
theorem cache_get_put_roundtrip {α : Type} (ttl now1 now2 now3 tPut : ℚ)
    (c : Cache α) (k : String) (v v' : α)
    (h1 : now1 - tPut < ttl) (h2 : ttl ≤ now2 - tPut)
    (h3 : now3 - now2 < ttl) :
    (get_cached ttl now1 (set_cache c k v tPut) k).1 = some v ∧
    (get_cached ttl now2 (set_cache c k v tPut) k).1 = none ∧
    ((get_cached ttl now2 (set_cache c k v tPut) k).2).lookup k = none ∧
    (get_cached ttl now3
      (set_cache (get_cached ttl now2 (set_cache c k v tPut) k).2 k v' now2)
      k).1 = some v' := by
  have hs := lookup_set_self c k v tPut
  have hfresh : (get_cached ttl now1 (set_cache c k v tPut) k).1 = some v := by
    unfold get_cached
    rw [hs]
    simp [h1]
  have hstale2 : ¬ (now2 - tPut < ttl) := not_lt.mpr h2
  have hstale :
      get_cached ttl now2 (set_cache c k v tPut) k =
        (none, (set_cache c k v tPut).eraseKey k) := by
    unfold get_cached
    rw [hs]
    simp [hstale2]
  refine ⟨hfresh, ?_, ?_, ?_⟩
  · rw [hstale]
  · rw [hstale]
    exact lookup_erase_self _ k
  · rw [hstale]
    unfold get_cached
    rw [lookup_set_self]
    simp [h3]

/-- Witness for `cache_get_put_roundtrip` at concrete times and values. -/
theorem cache_get_put_roundtrip_witness :
    (get_cached 300 10 (set_cache ([] : Cache ℕ) "k" 7 0) "k").1 = some 7 ∧
    (get_cached 300 400 (set_cache ([] : Cache ℕ) "k" 7 0) "k").1 = none ∧
    ((get_cached 300 400 (set_cache ([] : Cache ℕ) "k" 7 0) "k").2).lookup "k"
      = none ∧
    (get_cached 300 410
      (set_cache (get_cached 300 400 (set_cache ([] : Cache ℕ) "k" 7 0) "k").2
        "k" 8 400) "k").1 = some 8 :=
  cache_get_put_roundtrip 300 10 400 410 0 [] "k" 7 8
    (by norm_num) (by norm_num) (by norm_num)

/- ===================== C2 ===================== -/

/-- C2 counterexample: when the server reports a negative remaining, the
quota update stores it unclamped, so `remaining >= 0` does not hold in the
resulting `RateLimitInfo` state. -/
theorem quota_negative_remaining_stored :
    update_rate_limit_info (some 100) (some (-5)) (some 50) none =
      some { limit := 100, remaining := -5, reset_time := 50 } ∧
    (-5 : Int) < 0 := by
  exact ⟨rfl, by decide⟩

/-- C2 amended: a fully parsed header triple is stored verbatim — the
remaining value is not clamped and may be negative — while a negative
remaining is treated exactly like zero by the exceeded test, and a
`reset_time` not in the future imposes no rate-limit wait (given the
pacing interval has already elapsed, the request is issued immediately). -/
theorem quota_update_amended (l r t : Int) (cur : Option RateLimitInfo)
    (i : RateLimitInfo) (now last : ℚ)
    (hreset : i.reset_time ≤ now)
    (hpace : minRequestInterval ≤ now - last) :
    update_rate_limit_info (some l) (some r) (some t) cur =
      some { limit := l, remaining := r, reset_time := (t : ℚ) } ∧
    (RateLimitInfo.is_exceeded ⟨l, r, (t : ℚ)⟩ = true ↔ r ≤ 0) ∧
    issue_time now last (some i) = now := by
  refine ⟨rfl, ?_, ?_⟩
  · simp [RateLimitInfo.is_exceeded]
  · have h1 : ¬ (now - last < minRequestInterval) := not_lt.mpr hpace
    have h2 : ¬ (0 < i.reset_time - now) := by
      rw [not_lt]
      linarith
    simp only [issue_time, if_neg h1, RateLimitInfo.time_until_reset]
    by_cases hex : i.is_exceeded = true
    · simp [hex, h2]
    · simp [hex]

/-- Witness for `quota_update_amended` at concrete values. -/
theorem quota_update_amended_witness :
    update_rate_limit_info (some 100) (some (-5)) (some 50) none =
      some { limit := 100, remaining := -5, reset_time := 50 } ∧
    (RateLimitInfo.is_exceeded ⟨100, -5, (50 : ℚ)⟩ = true ↔ (-5 : Int) ≤ 0) ∧
    issue_time 4 0 (some { limit := 10, remaining := 5, reset_time := 3 })
      = 4 :=
  quota_update_amended 100 (-5) 50 none
    { limit := 10, remaining := 5, reset_time := 3 } 4 0
    (by norm_num) (by norm_num [minRequestInterval])

/- ===================== C3 ===================== -/

/-- C3: when the last known quota is exhausted (`remaining <= 0`) and its
reset time lies in the future, `_make_request` sleeps until the reset time
before issuing: the request is issued no earlier than `reset_time`, and it
is issued (the call proceeds rather than failing fast). -/
theorem request_blocks_until_reset (now last : ℚ) (i : RateLimitInfo)
    (hrem : i.remaining ≤ 0) (hfut : now < i.reset_time) :
    i.reset_time ≤ issue_time now last (some i) := by
  have hex : i.is_exceeded = true := by
    simp [RateLimitInfo.is_exceeded, hrem]
  simp only [issue_time, hex, if_true, RateLimitInfo.time_until_reset]
  by_cases hp : now - last < minRequestInterval
  · simp only [if_pos hp]
    by_cases hw : 0 < i.reset_time - (now + (minRequestInterval - (now - last)))
    · rw [if_pos hw]
      linarith
    · rw [if_neg hw]
      push_neg at hw
      linarith
  · simp only [if_neg hp]
    by_cases hw : 0 < i.reset_time - now
    · rw [if_pos hw]
      linarith
    · rw [if_neg hw]
      push_neg at hw
      linarith

/-- Witness for `request_blocks_until_reset` at concrete values. -/
theorem request_blocks_until_reset_witness :
    (5 : ℚ) ≤ issue_time 0 0
      (some { limit := 10, remaining := 0, reset_time := 5 }) :=
  request_blocks_until_reset 0 0
    { limit := 10, remaining := 0, reset_time := 5 }
    (by norm_num) (by norm_num)

/- ===================== C5 ===================== -/

/-- C5 counterexample: a 302 response is non-2xx, yet `_make_request`
returns it as a success, because `requests.Response.ok` tests
`status < 400`; so "any other non-2xx yields ServerError" fails at 302. -/
theorem non2xx_not_server_error :
    is2xx 302 = false ∧
    classify_response "courses" (.resp 302 "redirect") =
      .ok (302, "redirect") :=
  ⟨by decide, rfl⟩

/-- C5 amended: classification by status maps 401 to the authentication
error, 404 to the not-found error, 429 to the rate-limit error, and any
other status of at least 400 to the base error with an `API error`
message; statuses below 400 — including 3xx — are returned as successes.
Timeouts and connection failures raise the base class with fixed
messages.  The six failure outcomes are pairwise distinct values
(distinguished by class and message), and one call consumes exactly one
exchange: no retry happens inside the client. -/
theorem error_classification_amended (ep body : String) (s : Nat)
    (hs : 400 ≤ s) (h1 : s ≠ 401) (h2 : s ≠ 404) (h3 : s ≠ 429) :
    classify_response ep (.resp 401 body) =
      .error ⟨.authenticationError, "Invalid or expired access token"⟩ ∧
    classify_response ep (.resp 404 body) =
      .error ⟨.notFoundError, "Resource not found: " ++ ep⟩ ∧
    classify_response ep (.resp 429 body) =
      .error ⟨.rateLimitError, "Rate limit exceeded"⟩ ∧
    classify_response ep (.resp s body) =
      .error ⟨.canvasAPIError, "API error " ++ toString s ++ ": " ++ body⟩ ∧
    classify_response ep .timeout =
      .error ⟨.canvasAPIError, "Request timeout"⟩ ∧
    classify_response ep .connFailure =
      .error ⟨.canvasAPIError, "Connection error"⟩ ∧
    (∀ s2, s2 < 400 → classify_response ep (.resp s2 body) = .ok (s2, body)) ∧
    List.Nodup
      [classify_err "e" (.resp 401 "b"),
       classify_err "e" (.resp 404 "b"),
       classify_err "e" (.resp 429 "b"),
       classify_err "e" (.resp 500 "b"),
       classify_err "e" .timeout,
       classify_err "e" .connFailure] ∧
    (∀ (e : HttpResult) (rest rest2 : List HttpResult),
      request_once ep (e :: rest) = request_once ep (e :: rest2)) := by
  have hok : respOk s = false := by
    simp only [respOk, decide_eq_false_iff_not]
    omega
  refine ⟨rfl, rfl, rfl, ?_, rfl, rfl, ?_, ?_, ?_⟩
  · simp [classify_response, h1, h2, h3, hok]
  · intro s2 hlt
    have e1 : s2 ≠ 401 := by omega
    have e2 : s2 ≠ 404 := by omega
    have e3 : s2 ≠ 429 := by omega
    have eok : respOk s2 = true := by
      simp only [respOk, decide_eq_true_eq]
      omega
    simp [classify_response, e1, e2, e3, eok]
  · decide
  · intro e rest rest2
    rfl

/-- Witness for `error_classification_amended` at concrete values. -/
theorem error_classification_amended_witness :
    classify_response "e" (.resp 401 "b") =
      .error ⟨.authenticationError, "Invalid or expired access token"⟩ ∧
    classify_response "e" (.resp 404 "b") =
      .error ⟨.notFoundError, "Resource not found: " ++ "e"⟩ ∧
    classify_response "e" (.resp 429 "b") =
      .error ⟨.rateLimitError, "Rate limit exceeded"⟩ ∧
    classify_response "e" (.resp 500 "b") =
      .error ⟨.canvasAPIError, "API error " ++ toString 500 ++ ": " ++ "b"⟩ ∧
    classify_response "e" .timeout =
      .error ⟨.canvasAPIError, "Request timeout"⟩ ∧
    classify_response "e" .connFailure =
      .error ⟨.canvasAPIError, "Connection error"⟩ ∧
    (∀ s2, s2 < 400 → classify_response "e" (.resp s2 "b") = .ok (s2, "b")) ∧
    List.Nodup
      [classify_err "e" (.resp 401 "b"),
       classify_err "e" (.resp 404 "b"),
       classify_err "e" (.resp 429 "b"),
       classify_err "e" (.resp 500 "b"),
       classify_err "e" .timeout,
       classify_err "e" .connFailure] ∧
    (∀ (e : HttpResult) (rest rest2 : List HttpResult),
      request_once "e" (e :: rest) = request_once "e" (e :: rest2)) :=
  error_classification_amended "e" "b" 500 (by norm_num) (by norm_num)
    (by norm_num) (by norm_num)

/- ===================== C10 ===================== -/

/-- C10: the cache hit test of `get_courses` is a truthiness test on the
returned value, not an entry-presence test: a fresh cached empty list is
treated as a miss and a new remote request is issued (and re-cached),
while a fresh non-empty cached value short-circuits the remote call; in
general a call that skipped the remote request always returns a non-falsy
(non-empty) payload. -/
theorem get_courses_truthiness_gate {α : Type} (ttl now tPut : ℚ)
    (c : Cache (List α)) (et er : Option String) (remote v : List α) :
    (c.lookup (cache_key_courses et er) = some ([], tPut) →
      now - tPut < ttl →
      get_courses ttl now c et er remote =
        ⟨remote, set_cache c (cache_key_courses et er) remote now, true⟩) ∧
    (c.lookup (cache_key_courses et er) = some (v, tPut) → v ≠ [] →
      now - tPut < ttl →
      get_courses ttl now c et er remote = ⟨v, c, false⟩) ∧
    ((get_courses ttl now c et er remote).fetched = false →
      (get_courses ttl now c et er remote).data ≠ []) := by
  refine ⟨?_, ?_, ?_⟩
  · intro hl hf
    simp [get_courses, get_cached, hl, hf]
  · intro hl hv hf
    simp [get_courses, get_cached, hl, hf, List.isEmpty_iff, hv]
  · cases hl : c.lookup (cache_key_courses et er) with
    | none => simp [get_courses, get_cached, hl]
    | some p =>
        obtain ⟨w, ts⟩ := p
        by_cases hf : now - ts < ttl
        · by_cases he : w.isEmpty = true
          · simp [get_courses, get_cached, hl, hf, he]
          · simp only [get_courses, get_cached, hl, hf, if_true, he,
              if_false, Bool.false_eq_true]
            intro _ hw
            exact he (by simp [hw])
        · simp [get_courses, get_cached, hl, hf]

/-- Witness for `get_courses_truthiness_gate`: a fresh cached empty list
does not short-circuit the remote call. -/
theorem get_courses_truthiness_gate_witness :
    get_courses 300 10 [(cache_key_courses none none, ([] : List ℕ), 0)]
      none none [1, 2] =
      ⟨[1, 2],
       set_cache [(cache_key_courses none none, ([] : List ℕ), 0)]
         (cache_key_courses none none) [1, 2] 10, true⟩ :=
  (get_courses_truthiness_gate 300 10 0
      [(cache_key_courses none none, ([] : List ℕ), 0)] none none [1, 2]
      []).1
    (by simp [Cache.lookup]) (by norm_num)

/- ===================== Sync loop helper lemmas ===================== -/

/-- The per-item assignment loop never touches the job's status history:
item updates only write `items_processed`. -/
theorem assignment_loop_trace (cid : String) (items : List AssignmentData)
    (st : ItemLoop) :
    (items.foldl (process_assignment_item cid) st).js.trace = st.js.trace := by
  induction items generalizing st with
  | nil => rfl
  | cons d rest ih =>
      rw [List.foldl_cons, ih]
      unfold process_assignment_item
      cases convert_assignment cid d with
      | none => rfl
      | some a =>
          by_cases hp : d.persistOk = true
          · simp [hp, JobState.setProcessed]
          · simp [hp]

/-- The per-item course loop never touches the job's status history. -/
theorem course_loop_trace (items : List CourseData) (st : CourseLoop) :
    (items.foldl process_course_item st).js.trace = st.js.trace := by
  induction items generalizing st with
  | nil => rfl
  | cons d rest ih =>
      rw [List.foldl_cons, ih]
      unfold process_course_item
      cases convert_course d with
      | none => rfl
      | some a =>
          by_cases hp : d.persistOk = true
          · simp [hp, JobState.setProcessed]
          · simp [hp]

/- ===================== C6 ===================== -/

/-- C6: a job created by a sync operation walks exactly the status path
`Pending → Running → {Completed, Failed}`: its status history is one of
the two three-step traces, and every adjacent pair in the history is an
allowed transition of `SyncStep` — no transition skips `Running`, none
leaves a terminal state, and no other transition occurs.  Stated for the
course sync (under the conditions that let it create a job) and for the
assignment sync. -/
theorem job_status_lifecycle (running0 : List String) (db0 : Store Course)
    (dbA : Store Assignment) (fc : FetchOutcome CourseData)
    (fa : FetchOutcome AssignmentData) (uid uid2 cid : String) (force : Bool)
    (hrun : force = true ∨ uid ∉ running0) :
    ((sync_user_courses running0 db0 true fc uid force).trace =
        [.pending, .running, .completed] ∨
     (sync_user_courses running0 db0 true fc uid force).trace =
        [.pending, .running, .failed]) ∧
    List.Chain' SyncStep
      (sync_user_courses running0 db0 true fc uid force).trace ∧
    ((sync_course_assignments dbA true fa uid2 cid).trace =
        [.pending, .running, .completed] ∨
     (sync_course_assignments dbA true fa uid2 cid).trace =
        [.pending, .running, .failed]) ∧
    List.Chain' SyncStep (sync_course_assignments dbA true fa uid2 cid).trace := by
  have hrej : ¬ (force = false ∧ uid ∈ running0) := by
    rcases hrun with h | h
    · rintro ⟨hf, _⟩
      rw [h] at hf
      cases hf
    · rintro ⟨_, hm⟩
      exact h hm
  have hc : (sync_user_courses running0 db0 true fc uid force).trace =
      [.pending, .running, .completed] ∨
      (sync_user_courses running0 db0 true fc uid force).trace =
      [.pending, .running, .failed] := by
    cases fc with
    | exn m =>
        right
        simp [sync_user_courses, hrej, create_sync_job, JobState.setStatus,
          JobState.setError]
    | ok items =>
        left
        simp [sync_user_courses, hrej, create_sync_job, JobState.setStatus,
          JobState.setError, JobState.setProcessed, JobState.setTotal,
          course_loop_trace]
  have ha : (sync_course_assignments dbA true fa uid2 cid).trace =
      [.pending, .running, .completed] ∨
      (sync_course_assignments dbA true fa uid2 cid).trace =
      [.pending, .running, .failed] := by
    cases fa with
    | exn m =>
        right
        simp [sync_course_assignments, create_sync_job, JobState.setStatus,
          JobState.setError]
    | ok items =>
        left
        simp [sync_course_assignments, create_sync_job, JobState.setStatus,
          JobState.setError, JobState.setProcessed, JobState.setTotal,
          assignment_loop_trace]
  refine ⟨hc, ?_, ha, ?_⟩
  · rcases hc with h | h <;> rw [h] <;>
      simp [List.chain'_cons, SyncStep]
  · rcases ha with h | h <;> rw [h] <;>
      simp [List.chain'_cons, SyncStep]

/-- Witness for `job_status_lifecycle` at concrete inputs. -/
theorem job_status_lifecycle_witness :
    ((sync_user_courses [] [] true (.ok []) "u1" false).trace =
        [.pending, .running, .completed] ∨
     (sync_user_courses [] [] true (.ok []) "u1" false).trace =
        [.pending, .running, .failed]) ∧
    List.Chain' SyncStep (sync_user_courses [] [] true (.ok []) "u1" false).trace ∧
    ((sync_course_assignments [] true (.exn "boom") "u1" "c1").trace =
        [.pending, .running, .completed] ∨
     (sync_course_assignments [] true (.exn "boom") "u1" "c1").trace =
        [.pending, .running, .failed]) ∧
    List.Chain' SyncStep (sync_course_assignments [] true (.exn "boom") "u1" "c1").trace :=
  job_status_lifecycle [] [] [] (.ok []) (.exn "boom") "u1" "u1" "c1" false
    (Or.inr (by simp))

/- ===================== C7 ===================== -/

/-- C7 counterexample: the failure handler copies the exception's string
representation into `error_message` verbatim; an exception whose string
representation is empty (for example a bare `Exception()` raised by a
collaborator) produces a `FAILED` job whose `error_message` is the empty
string, so "non-empty regardless of which exception" fails. -/
theorem failed_job_error_message_can_be_empty :
    (sync_user_courses [] [] true (.exn "") "u1" false).jobs.map
      (fun j => (j.status, j.error_message)) = [(.failed, some "")] ∧
    (sync_user_courses [] [] true (.exn "") "u1" false).ret = .raised "" :=
  ⟨rfl, rfl⟩

/-- C7 amended: on every terminal transition to `FAILED` (courses sync or
assignments sync), `error_message` is set, at that moment, to the raised
exception's string representation; it is therefore non-empty exactly when
that representation is non-empty, which the code does not itself
enforce. -/
theorem failed_error_message_amended (running0 : List String)
    (db0 : Store Course) (dbA : Store Assignment) (m : String)
    (uid uid2 cid : String) (force : Bool)
    (hrun : force = true ∨ uid ∉ running0) (hm : m ≠ "") :
    (sync_user_courses running0 db0 true (.exn m) uid force).jobs.map
      (fun j => (j.status, j.error_message)) = [(.failed, some m)] ∧
    (sync_course_assignments dbA true (.exn m) uid2 cid).jobs.map
      (fun j => (j.status, j.error_message)) = [(.failed, some m)] ∧
    m ≠ "" := by
  have hrej : ¬ (force = false ∧ uid ∈ running0) := by
    rcases hrun with h | h
    · rintro ⟨hf, _⟩
      rw [h] at hf
      cases hf
    · rintro ⟨_, hmem⟩
      exact h hmem
  refine ⟨?_, ?_, hm⟩
  · simp [sync_user_courses, hrej, create_sync_job, JobState.setStatus,
      JobState.setError]
  · simp [sync_course_assignments, create_sync_job, JobState.setStatus,
      JobState.setError]

/-- Witness for `failed_error_message_amended` at concrete inputs. -/
theorem failed_error_message_amended_witness :
    (sync_user_courses [] [] true (.exn "boom") "u1" false).jobs.map
      (fun j => (j.status, j.error_message)) = [(.failed, some "boom")] ∧
    (sync_course_assignments [] true (.exn "boom") "u2" "c1").jobs.map
      (fun j => (j.status, j.error_message)) = [(.failed, some "boom")] ∧
    "boom" ≠ "" :=
  failed_error_message_amended [] [] [] "boom" "u1" "u2" "c1" false
    (Or.inr (by simp)) (by simp)

/- ===================== C8 ===================== -/

/-- An item whose save raises is skipped: counter and storage unchanged. -/
theorem process_skip_persist (cid : String) (st : ItemLoop)
    (d : AssignmentData) (hp : d.persistOk = false) :
    process_assignment_item cid st d = st := by
  unfold process_assignment_item
  cases convert_assignment cid d with
  | none => rfl
  | some a => simp [hp]

/-- An item without the mandatory name key is skipped. -/
theorem process_skip_name (cid : String) (st : ItemLoop)
    (d : AssignmentData) (hn : d.name = none) :
    process_assignment_item cid st d = st := by
  unfold process_assignment_item
  simp [convert_assignment, hn]

/-- A parseable item whose save succeeds is upserted and counted. -/
theorem process_success (cid : String) (st : ItemLoop) (d : AssignmentData)
    (n : String) (hn : d.name = some n) (hp : d.persistOk = true) :
    process_assignment_item cid st d =
      { db := st.db.upsert ("assign_" ++ toString d.id)
          ⟨"assign_" ++ toString d.id, toString d.id, cid, n,
            .str (d.workflow_state.getD "published")⟩
        synced := st.synced + 1
        js := st.js.setProcessed (st.synced + 1) } := by
  unfold process_assignment_item
  simp [convert_assignment, hn, hp]

/-- C8: when the collection fetch succeeds with five assignments and
exactly the third fails to parse or persist, the job ends `COMPLETED`
with `items_processed = 4` and `items_total = 5`, and the four surviving
items are upserted into storage in order. -/
theorem partial_failure_completes (db0 : Store Assignment)
    (d1 d2 d3 d4 d5 : AssignmentData) (n1 n2 n4 n5 : String)
    (uid cid : String)
    (h1 : d1.name = some n1) (h1p : d1.persistOk = true)
    (h2 : d2.name = some n2) (h2p : d2.persistOk = true)
    (h4 : d4.name = some n4) (h4p : d4.persistOk = true)
    (h5 : d5.name = some n5) (h5p : d5.persistOk = true)
    (h3 : d3.name = none ∨ d3.persistOk = false) :
    (sync_course_assignments db0 true (.ok [d1, d2, d3, d4, d5])
        uid cid).jobs.map
      (fun j => (j.status, j.items_processed, j.items_total)) =
      [(.completed, 4, 5)] ∧
    (sync_course_assignments db0 true (.ok [d1, d2, d3, d4, d5])
        uid cid).db =
      (((db0.upsert ("assign_" ++ toString d1.id)
            ⟨"assign_" ++ toString d1.id, toString d1.id, cid, n1,
              .str (d1.workflow_state.getD "published")⟩).upsert
              ("assign_" ++ toString d2.id)
            ⟨"assign_" ++ toString d2.id, toString d2.id, cid, n2,
              .str (d2.workflow_state.getD "published")⟩).upsert
              ("assign_" ++ toString d4.id)
            ⟨"assign_" ++ toString d4.id, toString d4.id, cid, n4,
              .str (d4.workflow_state.getD "published")⟩).upsert
              ("assign_" ++ toString d5.id)
            ⟨"assign_" ++ toString d5.id, toString d5.id, cid, n5,
              .str (d5.workflow_state.getD "published")⟩ := by
  rcases h3 with h3x | h3x <;>
    constructor <;>
      simp [sync_course_assignments, create_sync_job, JobState.setStatus,
        JobState.setError, JobState.setProcessed, JobState.setTotal,
        process_success, process_skip_name, process_skip_persist,
        h1, h1p, h2, h2p, h3x, h4, h4p, h5, h5p]

/-- Witness for `partial_failure_completes` at concrete items. -/
theorem partial_failure_completes_witness :
    (sync_course_assignments []
        true (.ok [⟨1, some "a1", some "published", true⟩,
                   ⟨2, some "a2", some "published", true⟩,
                   ⟨3, some "a3", some "published", false⟩,
                   ⟨4, some "a4", some "unpublished", true⟩,
                   ⟨5, some "a5", none, true⟩]) "u" "c").jobs.map
      (fun j => (j.status, j.items_processed, j.items_total)) =
      [(.completed, 4, 5)] ∧
    (sync_course_assignments []
        true (.ok [⟨1, some "a1", some "published", true⟩,
                   ⟨2, some "a2", some "published", true⟩,
                   ⟨3, some "a3", some "published", false⟩,
                   ⟨4, some "a4", some "unpublished", true⟩,
                   ⟨5, some "a5", none, true⟩]) "u" "c").db =
      Store.upsert
        (Store.upsert
          (Store.upsert
            (Store.upsert [] ("assign_" ++ toString 1)
              ⟨"assign_" ++ toString 1, toString 1, "c", "a1",
                .str ((some "published").getD "published")⟩)
            ("assign_" ++ toString 2)
            ⟨"assign_" ++ toString 2, toString 2, "c", "a2",
              .str ((some "published").getD "published")⟩)
          ("assign_" ++ toString 4)
          ⟨"assign_" ++ toString 4, toString 4, "c", "a4",
            .str ((some "unpublished").getD "published")⟩)
        ("assign_" ++ toString 5)
        ⟨"assign_" ++ toString 5, toString 5, "c", "a5",
          .str ((none : Option String).getD "published")⟩ :=
  partial_failure_completes [] ⟨1, some "a1", some "published", true⟩
    ⟨2, some "a2", some "published", true⟩
    ⟨3, some "a3", some "published", false⟩
    ⟨4, some "a4", some "unpublished", true⟩
    ⟨5, some "a5", none, true⟩ "a1" "a2" "a4" "a5" "u" "c"
    rfl rfl rfl rfl rfl rfl rfl rfl (Or.inr rfl)

/- ===================== C9 ===================== -/

/-- C9: mutual exclusion by principal in `sync_user_courses`.  When the
principal is already in the running set and `force_refresh` is false, the
call returns the rejection with no job created, the running set
untouched, and no remote call (no shared-state events at all).
Otherwise the call inserts the principal into the running set before the
remote fetch and removes it on every exit path, success and raised
failure alike: the event order is insert, fetch, remove; the principal is
absent from the final running set; and every other principal's
membership is unchanged. -/
theorem per_principal_mutual_exclusion (running0 : List String)
    (db0 : Store Course) (fetch : FetchOutcome CourseData)
    (uid : String) (force : Bool) :
    (force = false → uid ∈ running0 →
      sync_user_courses running0 db0 true fetch uid force =
        { ret := .rejected, running := running0, jobs := [], trace := []
          events := [], db := db0 }) ∧
    ((force = true ∨ uid ∉ running0) →
      (sync_user_courses running0 db0 true fetch uid force).events =
        [.insertRunning uid, .remoteFetch, .removeRunning uid] ∧
      uid ∉ (sync_user_courses running0 db0 true fetch uid force).running ∧
      (∀ y, y ≠ uid →
        (y ∈ (sync_user_courses running0 db0 true fetch uid force).running ↔
          y ∈ running0))) := by
  constructor
  · intro hf hm
    simp [sync_user_courses, hf, hm]
  · intro h
    have hrej : ¬ (force = false ∧ uid ∈ running0) := by
      rcases h with h | h
      · rintro ⟨hf, _⟩
        rw [h] at hf
        cases hf
      · rintro ⟨_, hm⟩
        exact h hm
    have hrunproj :
        (sync_user_courses running0 db0 true fetch uid force).running =
          eraseSet (insertSet running0 uid) uid := by
      cases fetch <;> simp [sync_user_courses, hrej]
    have hev :
        (sync_user_courses running0 db0 true fetch uid force).events =
          [.insertRunning uid, .remoteFetch, .removeRunning uid] := by
      cases fetch <;> simp [sync_user_courses, hrej]
    refine ⟨hev, ?_, ?_⟩
    · rw [hrunproj]
      intro hx
      have := (List.mem_filter.mp hx).2
      simp at this
    · intro y hy
      rw [hrunproj]
      have hyb : (y != uid) = true := by simp [hy]
      simp only [eraseSet, List.mem_filter, hyb, and_true]
      by_cases hin : uid ∈ running0
      · simp [insertSet, hin]
      · simp [insertSet, hin, hy]

/-- Witness for `per_principal_mutual_exclusion`: a duplicate call for a
running principal is rejected without touching any state, and a call for
an idle principal inserts before fetching and removes afterwards. -/
theorem per_principal_mutual_exclusion_witness :
    sync_user_courses ["u1"] [] true (.ok []) "u1" false =
      { ret := .rejected, running := ["u1"], jobs := [], trace := []
        events := [], db := [] } ∧
    (sync_user_courses ["u1"] [] true (.ok []) "u2" false).events =
      [.insertRunning "u2", .remoteFetch, .removeRunning "u2"] :=
  ⟨(per_principal_mutual_exclusion ["u1"] [] (.ok []) "u1" false).1
      rfl (by simp),
   ((per_principal_mutual_exclusion ["u1"] [] (.ok []) "u2" false).2
      (Or.inr (by simp))).1⟩

/- ===================== C1 ===================== -/

/-- C1: the assignment sync path stores the raw `workflow_state` string
into the mirror's `status` field instead of applying the enum mapping
declared by the data model and implemented by the API routes.  At
`workflow_state = "deleted"` the sync conversion stores the raw string
`"deleted"` where the mapping prescribes `DRAFT`; even at `"published"`
the stored value is the raw string, not the enum member. -/
theorem sync_status_mapping_missing :
    (convert_assignment "c1" ⟨7, some "HW 1", some "deleted", true⟩).map
      (fun a => a.status) = some (.str "deleted") ∧
    map_workflow_state "deleted" = .draft ∧
    StatusVal.str "deleted" ≠ StatusVal.enum .draft ∧
    (convert_assignment "c1" ⟨7, some "HW 1", some "published", true⟩).map
      (fun a => a.status) = some (.str "published") ∧
    StatusVal.str "published" ≠ StatusVal.enum .published :=
  ⟨rfl, rfl, by decide, rfl, by decide⟩

end CanvasFlow
